import Mathlib

/-!
Shallow embedding of the provider request/response adapter of the
obsidian-ai-interface plugin (src/main.ts).  JavaScript runtime values are
modelled by the inductive `JsValue`; property access, truthiness, optional
chaining and `String.prototype.trim` follow JavaScript semantics (thrown
TypeErrors are modelled in an `Except JsError` monad; inside string
messages the JavaScript quote characters are elided).  Numbers are
modelled as rationals.
-/

/-- A thrown JavaScript error: its `name` (Error, TypeError, AbortError)
and its `message`. -/
structure JsError where
  name : String
  message : String
deriving DecidableEq, Repr

/-- `new Error(msg)`. -/
def jsNewError (msg : String) : JsError := { name := "Error", message := msg }

/-- A decoded JSON / JavaScript value. -/
inductive JsValue where
  | undefined
  | null
  | bool (b : Bool)
  | num (n : Rat)
  | str (s : String)
  | arr (elems : List JsValue)
  | obj (fields : List (String × JsValue))

/-- JavaScript truthiness. -/
def truthy : JsValue → Bool
  | .undefined => false
  | .null => false
  | .bool b => b
  | .num n => n != 0
  | .str s => s != ""
  | .arr _ => true
  | .obj _ => true

/-- `v` is `null` or `undefined` (the values short-circuiting `?.`). -/
def isNullish : JsValue → Bool
  | .undefined => true
  | .null => true
  | _ => false

/-- JavaScript property access `v.k`: throws a TypeError on `null` and
`undefined`, looks the key up on objects, yields `undefined` on other
primitives and on missing keys. -/
def getProp : JsValue → String → Except JsError JsValue
  | .undefined, k =>
      .error { name := "TypeError",
               message := "Cannot read properties of undefined (reading " ++ k ++ ")" }
  | .null, k =>
      .error { name := "TypeError",
               message := "Cannot read properties of null (reading " ++ k ++ ")" }
  | .obj fields, k =>
      .ok (((fields.find? (fun p => p.1 == k)).map (fun p => p.2)).getD .undefined)
  | _, _ => .ok .undefined

/-- JavaScript indexed access `v[i]` for a numeric literal index. -/
def getIndex : JsValue → Nat → Except JsError JsValue
  | .undefined, i =>
      .error { name := "TypeError",
               message := "Cannot read properties of undefined (reading " ++ toString i ++ ")" }
  | .null, i =>
      .error { name := "TypeError",
               message := "Cannot read properties of null (reading " ++ toString i ++ ")" }
  | .arr elems, i => .ok ((elems.get? i).getD .undefined)
  | .obj fields, i =>
      .ok (((fields.find? (fun p => p.1 == toString i)).map (fun p => p.2)).getD .undefined)
  | .str s, i =>
      .ok (((s.toList.get? i).map (fun c => JsValue.str (String.singleton c))).getD .undefined)
  | _, _ => .ok .undefined

/-- Remove leading and trailing whitespace from a string (the semantics of
`String.prototype.trim`), computed structurally over the character list. -/
def trimString (s : String) : String :=
  ⟨((s.toList.dropWhile Char.isWhitespace).reverse.dropWhile Char.isWhitespace).reverse⟩

/-- JavaScript `v.trim()`: trims strings, throws a TypeError otherwise. -/
def jsTrim : JsValue → Except JsError String
  | .str s => .ok (trimString s)
  | .undefined =>
      .error { name := "TypeError",
               message := "Cannot read properties of undefined (reading trim)" }
  | .null =>
      .error { name := "TypeError",
               message := "Cannot read properties of null (reading trim)" }
  | _ => .error { name := "TypeError", message := "trim is not a function" }

/-- The canonical result of the Response Normalizer (interface AIResponse). -/
structure AIResponse where
  content : String
  error : Option String := none
deriving DecidableEq, Repr

/-- The provider tags of `AIServiceConfig.provider` (a closed union in the
source). -/
inductive Provider where
  | openai | anthropic | google | meta | mistral | azure | cohere | qwen
  | deepseek | perplexity | ollama | lmstudio | localai | koboldai | custom
deriving DecidableEq, Repr

/-- The auth schemes of `AIServiceConfig.authType`. -/
inductive AuthType where
  | bearer | apiKey | custom | none
deriving DecidableEq, Repr

/-- One configured backend (interface AIServiceConfig).  `headers` is an
association list in JavaScript object key order; `isLocal` is the optional
flag (`Option.none` models an absent field). -/
structure AIServiceConfig where
  name : String
  url : String
  apiKey : String
  headers : List (String × String)
  authType : AuthType
  model : String
  provider : Provider
  isLocal : Option Bool := Option.none
deriving DecidableEq, Repr

/-- Process-wide configuration (interface AIInterfaceSettings).  The
`services` map is an association list in JavaScript object insertion
order. -/
structure AIInterfaceSettings where
  activeService : String
  services : List (String × AIServiceConfig)
  temperature : Rat
  maxTokens : Rat
  timeout : Rat
deriving DecidableEq, Repr

/-- Per-call options (interface AIRequestOptions); `Option.none` models an
absent (undefined) field. -/
structure AIRequestOptions where
  temperature : Option Rat := Option.none
  maxTokens : Option Rat := Option.none
  model : Option String := Option.none
  systemPrompt : Option String := Option.none
deriving DecidableEq, Repr

/-!
Response Normalizer: `parseResponse(provider, data)` of src/main.ts.
Each provider case is translated access-by-access; the whole switch sits
inside one try/catch that converts any thrown error into the `error`
variant.
-/

/-- `data.choices[0].message.content.trim()` wrapped as an AIResponse
(openai / meta / mistral / deepseek / perplexity / lmstudio / localai). -/
def parseChoicesMessage (data : JsValue) : Except JsError AIResponse := do
  let c ← getProp data "choices"
  let c0 ← getIndex c 0
  let m ← getProp c0 "message"
  let v ← getProp m "content"
  let s ← jsTrim v
  pure { content := s }

/-- `data.content[0].text.trim()` (anthropic). -/
def parseAnthropicShape (data : JsValue) : Except JsError AIResponse := do
  let c ← getProp data "content"
  let c0 ← getIndex c 0
  let v ← getProp c0 "text"
  let s ← jsTrim v
  pure { content := s }

/-- `data.candidates[0].content.parts[0].text.trim()` (google). -/
def parseGoogleShape (data : JsValue) : Except JsError AIResponse := do
  let c ← getProp data "candidates"
  let c0 ← getIndex c 0
  let ct ← getProp c0 "content"
  let ps ← getProp ct "parts"
  let p0 ← getIndex ps 0
  let v ← getProp p0 "text"
  let s ← jsTrim v
  pure { content := s }

/-- `data.generations[0].text.trim()` (cohere). -/
def parseCohereShape (data : JsValue) : Except JsError AIResponse := do
  let g ← getProp data "generations"
  let g0 ← getIndex g 0
  let v ← getProp g0 "text"
  let s ← jsTrim v
  pure { content := s }

/-- `data.output.text.trim()` (qwen). -/
def parseQwenShape (data : JsValue) : Except JsError AIResponse := do
  let o ← getProp data "output"
  let v ← getProp o "text"
  let s ← jsTrim v
  pure { content := s }

/-- `data.results[0].text.trim()` (koboldai). -/
def parseKoboldShape (data : JsValue) : Except JsError AIResponse := do
  let r ← getProp data "results"
  let r0 ← getIndex r 0
  let v ← getProp r0 "text"
  let s ← jsTrim v
  pure { content := s }

/-- The string held by a `JsValue.str`, or `""`. -/
def strOf : JsValue → String
  | .str s => s
  | _ => ""

/-- `data.message?.content?.trim()` (ollama): `undefined` when the chain
short-circuits, else the trimmed string. -/
def ollamaMsgVal (data : JsValue) : Except JsError JsValue := do
  let m ← getProp data "message"
  if isNullish m then pure .undefined else do
    let c ← getProp m "content"
    if isNullish c then pure .undefined else do
      let s ← jsTrim c
      pure (JsValue.str s)

/-- `data.response?.trim()` (ollama). -/
def ollamaRespVal (data : JsValue) : Except JsError JsValue := do
  let r ← getProp data "response"
  if isNullish r then pure .undefined else do
    let s ← jsTrim r
    pure (JsValue.str s)

/-- `data.message?.content?.trim() || data.response?.trim() || ""`
(ollama). -/
def parseOllamaShape (data : JsValue) : Except JsError AIResponse := do
  let a ← ollamaMsgVal data
  if truthy a then pure { content := strOf a } else do
    let b ← ollamaRespVal data
    if truthy b then pure { content := strOf b } else pure { content := "" }

/-- Guard of the first fallback probe: `data.choices?.[0]?.message?.content`
(optional chaining). -/
def guardChoicesMessage (data : JsValue) : Except JsError JsValue := do
  let c ← getProp data "choices"
  if isNullish c then pure .undefined else do
  let c0 ← getIndex c 0
  if isNullish c0 then pure .undefined else do
  let m ← getProp c0 "message"
  if isNullish m then pure .undefined else
  getProp m "content"

/-- Extractor of the first fallback probe:
`data.choices[0].message.content` (plain access, as re-run by the source
after the guard succeeded). -/
def extractChoicesMessage (data : JsValue) : Except JsError JsValue := do
  let c ← getProp data "choices"
  let c0 ← getIndex c 0
  let m ← getProp c0 "message"
  getProp m "content"

/-- Guard of the second fallback probe: `data.output?.text`. -/
def guardOutput (data : JsValue) : Except JsError JsValue := do
  let o ← getProp data "output"
  if isNullish o then pure .undefined else getProp o "text"

/-- Extractor of the second fallback probe: `data.output.text`. -/
def extractOutput (data : JsValue) : Except JsError JsValue := do
  let o ← getProp data "output"
  getProp o "text"

/-- Third fallback probe, guard and extractor alike: `data.response`. -/
def probeResponseField (data : JsValue) : Except JsError JsValue :=
  getProp data "response"

/-- Guard of the fourth fallback probe: `data.message?.content`. -/
def guardMessage (data : JsValue) : Except JsError JsValue := do
  let m ← getProp data "message"
  if isNullish m then pure .undefined else getProp m "content"

/-- Extractor of the fourth fallback probe: `data.message.content`. -/
def extractMessage (data : JsValue) : Except JsError JsValue := do
  let m ← getProp data "message"
  getProp m "content"

/-- Fifth fallback probe, guard and extractor alike:
`data.text || data.content`. -/
def probeTextOrContent (data : JsValue) : Except JsError JsValue := do
  let t ← getProp data "text"
  if truthy t then pure t else getProp data "content"

/-- Guard of the sixth fallback probe: `data.choices?.[0]?.content`. -/
def guardChoicesContent (data : JsValue) : Except JsError JsValue := do
  let c ← getProp data "choices"
  if isNullish c then pure .undefined else do
  let c0 ← getIndex c 0
  if isNullish c0 then pure .undefined else
  getProp c0 "content"

/-- Extractor of the sixth fallback probe: `data.choices[0].content`. -/
def extractChoicesContent (data : JsValue) : Except JsError JsValue := do
  let c ← getProp data "choices"
  let c0 ← getIndex c 0
  getProp c0 "content"

/-- Guard of the seventh fallback probe: `data.choices?.[0]?.text`. -/
def guardChoicesRaw (data : JsValue) : Except JsError JsValue := do
  let c ← getProp data "choices"
  if isNullish c then pure .undefined else do
  let c0 ← getIndex c 0
  if isNullish c0 then pure .undefined else
  getProp c0 "text"

/-- Extractor of the seventh fallback probe: `data.choices[0].text`. -/
def extractChoicesRaw (data : JsValue) : Except JsError JsValue := do
  let c ← getProp data "choices"
  let c0 ← getIndex c 0
  getProp c0 "text"

/-- `return { content: <extracted>.trim() }`. -/
def trimmedContent (extract : JsValue → Except JsError JsValue)
    (data : JsValue) : Except JsError AIResponse := do
  let v ← extract data
  let s ← jsTrim v
  pure { content := s }

/-- The `case custom:` branch of `parseResponse`: seven guarded probes in
source order, then `throw new Error("Unable to parse response format")`. -/
def parseCustomShape (data : JsValue) : Except JsError AIResponse := do
  let g1 ← guardChoicesMessage data
  if truthy g1 then trimmedContent extractChoicesMessage data else do
  let g2 ← guardOutput data
  if truthy g2 then trimmedContent extractOutput data else do
  let g3 ← probeResponseField data
  if truthy g3 then trimmedContent probeResponseField data else do
  let g4 ← guardMessage data
  if truthy g4 then trimmedContent extractMessage data else do
  let g5 ← probeTextOrContent data
  if truthy g5 then trimmedContent probeTextOrContent data else do
  let g6 ← guardChoicesContent data
  if truthy g6 then trimmedContent extractChoicesContent data else do
  let g7 ← guardChoicesRaw data
  if truthy g7 then trimmedContent extractChoicesRaw data else
  Except.error (jsNewError "Unable to parse response format")

/-- The `default:` branch of `parseResponse` (reached only by the `azure`
tag): the first three probes of the custom branch, then
`throw new Error("Unable to parse response format")`. -/
def parseDefaultShape (data : JsValue) : Except JsError AIResponse := do
  let g1 ← guardChoicesMessage data
  if truthy g1 then trimmedContent extractChoicesMessage data else do
  let g2 ← guardOutput data
  if truthy g2 then trimmedContent extractOutput data else do
  let g3 ← probeResponseField data
  if truthy g3 then trimmedContent probeResponseField data else
  Except.error (jsNewError "Unable to parse response format")

/-- The switch inside `parseResponse`, before the enclosing try/catch. -/
def parseResponseInner (provider : Provider) (data : JsValue) :
    Except JsError AIResponse :=
  match provider with
  | .openai => parseChoicesMessage data
  | .anthropic => parseAnthropicShape data
  | .google => parseGoogleShape data
  | .meta => parseChoicesMessage data
  | .mistral => parseChoicesMessage data
  | .deepseek => parseChoicesMessage data
  | .perplexity => parseChoicesMessage data
  | .cohere => parseCohereShape data
  | .qwen => parseQwenShape data
  | .ollama => parseOllamaShape data
  | .lmstudio => parseChoicesMessage data
  | .localai => parseChoicesMessage data
  | .koboldai => parseKoboldShape data
  | .custom => parseCustomShape data
  | _ => parseDefaultShape data

/-- `parseResponse(provider, data)`: the switch wrapped in the catch that
turns any thrown error into
`{content: "", error: "Failed to parse response: " + error.message}`. -/
def parseResponse (provider : Provider) (data : JsValue) : AIResponse :=
  match parseResponseInner provider data with
  | .ok r => r
  | .error e => { content := "", error := some ("Failed to parse response: " ++ e.message) }

/-!
Spec-side formulation of the fallback path: an ordered list of
guard/extractor pairs, first truthy guard wins.
-/

/-- One fallback probe: a guard (evaluated with optional chaining, tested
for truthiness) and an extractor (whose result is trimmed). -/
structure FallbackProbe where
  guard : JsValue → Except JsError JsValue
  extract : JsValue → Except JsError JsValue

/-- Modelled from the spec: run an ordered list of probes, returning the
first probe whose guard is truthy (its extraction, trimmed); if none
matches, throw `Unable to parse response format`. -/
def probeFold : List FallbackProbe → JsValue → Except JsError AIResponse
  | [], _ => Except.error (jsNewError "Unable to parse response format")
  | p :: rest, data => do
    let g ← p.guard data
    if truthy g then trimmedContent p.extract data else probeFold rest data

/-- Modelled from the spec: the seven-shape ordered fallback probe of the
custom / unmatched path, in the documented order. -/
def specFallbackProbes : List FallbackProbe :=
  [ { guard := guardChoicesMessage, extract := extractChoicesMessage },
    { guard := guardOutput, extract := extractOutput },
    { guard := probeResponseField, extract := probeResponseField },
    { guard := guardMessage, extract := extractMessage },
    { guard := probeTextOrContent, extract := probeTextOrContent },
    { guard := guardChoicesContent, extract := extractChoicesContent },
    { guard := guardChoicesRaw, extract := extractChoicesRaw } ]

/-!
Invocation Orchestrator: `invokeAI(prompt, options)` of src/main.ts,
together with `isConfigured()`.  The network round trip is abstracted by
a `FetchOutcome` argument describing how the single `fetch` call behaves.
-/

/-- JavaScript object property lookup on the services registry
(`settings.services[id]`). -/
def svcLookup (services : List (String × AIServiceConfig)) (id : String) :
    Option AIServiceConfig :=
  (services.find? (fun p => p.1 == id)).map (fun p => p.2)

/-- Truthiness of the optional `isLocal` flag (absent and `false` are both
falsy). -/
def truthyIsLocal (s : AIServiceConfig) : Bool := s.isLocal.getD false

/-- The service-resolution prefix of `invokeAI` (its first three
statements): start from the active service, optionally re-route by
`options.model`, then `if (!activeService) throw`.  Note the source reads
`activeService.model` inside the routing condition before the
`!activeService` guard, which throws a TypeError when the active id is
dangling and `options.model` is truthy. -/
def resolveService (settings : AIInterfaceSettings) (options : AIRequestOptions) :
    Except JsError AIServiceConfig :=
  let active? := svcLookup settings.services settings.activeService
  let routed : Except JsError (Option AIServiceConfig) :=
    match options.model with
    | some m =>
      if m != "" then
        match active? with
        | Option.none =>
            Except.error { name := "TypeError",
                           message := "Cannot read properties of undefined (reading model)" }
        | some active =>
            if m != active.model then
              match settings.services.find? (fun p => p.2.model == m) with
              | some entry => Except.ok (some entry.2)
              | Option.none => Except.ok (some active)
            else Except.ok (some active)
      else Except.ok active?
    | Option.none => Except.ok active?
  match routed with
  | .error e => .error e
  | .ok Option.none => .error (jsNewError "AI Interface is not properly configured")
  | .ok (some s) => .ok s

/-- JavaScript object assignment `h[k] = v` on an association list: an
existing key keeps its position and gets the new value, a new key is
appended. -/
def setKey (hs : List (String × String)) (k v : String) : List (String × String) :=
  if hs.any (fun p => p.1 == k) then
    hs.map (fun p => if p.1 == k then (k, v) else p)
  else hs ++ [(k, v)]

/-- `hay.includes(needle)` on character lists. -/
def listContainsSub (needle : List Char) : List Char → Bool
  | [] => needle.isEmpty
  | c :: rest => needle.isPrefixOf (c :: rest) || listContainsSub needle rest

/-- `hay.includes(needle)` for strings. -/
def containsSub (hay needle : String) : Bool :=
  listContainsSub needle.toList hay.toList

/-- `{"Content-Type": "application/json", ...activeService.headers}`. -/
def baseHeaders (s : AIServiceConfig) : List (String × String) :=
  s.headers.foldl (fun acc p => setKey acc p.1 p.2)
    [("Content-Type", "application/json")]

/-- The header-construction block of `invokeAI`: the base headers, plus
the authentication headers synthesized per `authType` when the service is
not local. -/
def buildHeaders (s : AIServiceConfig) : List (String × String) :=
  let h := baseHeaders s
  if truthyIsLocal s then h else
  match s.authType with
  | .bearer =>
      let h := setKey h "Authorization" ("Bearer " ++ s.apiKey)
      if containsSub s.url "openrouter.ai" then
        setKey (setKey h "HTTP-Referer" "http://localhost:8080")
          "X-Title" "Obsidian AI Interface"
      else h
  | .apiKey =>
      if s.provider == Provider.azure then setKey h "api-key" s.apiKey
      else if s.provider == Provider.google then setKey h "x-goog-api-key" s.apiKey
      else setKey h "api-key" s.apiKey
  | .custom => h
  | .none => h

/-- `formatRequestBody(provider, model, prompt, systemPrompt, temperature,
maxTokens)`: the provider-specific wire body.  The `default:` case (hit by
`azure` and `custom`) is the OpenAI-like shape. -/
def formatRequestBody (provider : Provider) (model prompt systemPrompt : String)
    (temperature maxTokens : Rat) : JsValue :=
  let chatMessages : JsValue := .arr
    [ .obj [("role", .str "system"), ("content", .str systemPrompt)],
      .obj [("role", .str "user"), ("content", .str prompt)] ]
  let openaiLike : JsValue := .obj
    [ ("model", .str model), ("messages", chatMessages),
      ("temperature", .num temperature), ("max_tokens", .num maxTokens) ]
  match provider with
  | .openai => openaiLike
  | .anthropic => .obj
      [ ("model", .str model),
        ("messages", .arr [.obj [("role", .str "user"), ("content", .str prompt)]]),
        ("system", .str systemPrompt),
        ("max_tokens", .num maxTokens),
        ("temperature", .num temperature) ]
  | .google => .obj
      [ ("contents", .arr [.obj [("role", .str "user"),
          ("parts", .arr [.obj [("text", .str prompt)]])]]),
        ("generationConfig", .obj [("temperature", .num temperature),
          ("maxOutputTokens", .num maxTokens)]),
        ("safetySettings", .arr []) ]
  | .meta => openaiLike
  | .mistral => openaiLike
  | .cohere => .obj
      [ ("model", .str model), ("prompt", .str prompt),
        ("temperature", .num temperature), ("max_tokens", .num maxTokens),
        ("return_likelihoods", .str "NONE") ]
  | .qwen => .obj
      [ ("model", .str model),
        ("input", .obj [("messages", chatMessages)]),
        ("parameters", .obj [("temperature", .num temperature),
          ("max_tokens", .num maxTokens)]) ]
  | .deepseek => openaiLike
  | .perplexity => openaiLike
  | .ollama => .obj
      [ ("model", .str model), ("messages", chatMessages),
        ("stream", .bool false),
        ("options", .obj [("temperature", .num temperature),
          ("num_predict", .num maxTokens)]) ]
  | .lmstudio => openaiLike
  | .localai => openaiLike
  | .koboldai => .obj
      [ ("prompt", .str (systemPrompt ++ "\n\nUser: " ++ prompt ++ "\nAssistant:")),
        ("max_length", .num maxTokens),
        ("temperature", .num temperature),
        ("stop_sequence", .arr [.str "\nUser:", .str "\nHuman:"]),
        ("max_context_length", .num 4096) ]
  | _ => openaiLike

/-- Plain lookup of a field of a concrete (object) body; `Option.none`
when the body is not an object or lacks the key. -/
def jsField (v : JsValue) (k : String) : Option JsValue :=
  match v with
  | .obj fields => (fields.find? (fun p => p.1 == k)).map (fun p => p.2)
  | _ => Option.none

/-- The wire request assembled by the try block of `invokeAI`. -/
structure WireRequest where
  url : String
  headers : List (String × String)
  body : JsValue

/-- The request `invokeAI` sends for a resolved service: its URL, the
synthesized headers, and the formatted body built from the per-call
options merged over the service/global defaults (ES destructuring
defaults apply only to absent fields). -/
def buildRequest (service : AIServiceConfig) (settings : AIInterfaceSettings)
    (prompt : String) (options : AIRequestOptions) : WireRequest :=
  { url := service.url,
    headers := buildHeaders service,
    body := formatRequestBody service.provider
      (options.model.getD service.model) prompt
      (options.systemPrompt.getD "You are a helpful assistant.")
      (options.temperature.getD settings.temperature)
      (options.maxTokens.getD settings.maxTokens) }

/-- How the single `fetch` call of one invocation behaves: rejection (the
armed timeout surfaces as an `AbortError` rejection), a non-ok HTTP
response (with the best-effort decoded error payload, `Option.none` when
the body failed to decode), or a decoded success body. -/
inductive FetchOutcome where
  | reject (e : JsError)
  | httpError (status : Nat) (errBody : Option JsValue)
  | success (body : JsValue)

/-- `String(v)` as used when an HTTP error payload's embedded message is
truthy: shallow JavaScript stringification. -/
def jsToMessageStr : JsValue → String
  | .str s => s
  | .num n => toString n
  | .bool b => cond b "true" "false"
  | .null => "null"
  | .undefined => "undefined"
  | .obj _ => "[object Object]"
  | .arr elems => String.intercalate ","
      (elems.map (fun e => match e with
        | .str s => s
        | .num n => toString n
        | .bool b => cond b "true" "false"
        | .obj _ => "[object Object]"
        | _ => ""))

/-- `error?.error?.message` over the best-effort decoded error payload. -/
def httpErrMessageVal (errBody : Option JsValue) : JsValue :=
  match errBody with
  | Option.none => .undefined
  | some b =>
    match b with
    | .null => .undefined
    | .undefined => .undefined
    | .obj fields =>
      match (fields.find? (fun p => p.1 == "error")).map (fun p => p.2) with
      | some inner =>
        match inner with
        | .obj innerFields =>
            (((innerFields.find? (fun p => p.1 == "message")).map (fun p => p.2)).getD .undefined)
        | _ => .undefined
      | Option.none => .undefined
    | _ => .undefined

/-- The inner try block of `invokeAI`: build the request, perform the
fetch, map the outcome — `AbortError` becomes the timeout message, non-ok
statuses become the embedded or generic HTTP error, success bodies go
through `parseResponse` whose `error` field (when truthy) is rethrown. -/
def tryPhase (service : AIServiceConfig) (settings : AIInterfaceSettings)
    (prompt : String) (options : AIRequestOptions) (fetch : FetchOutcome) :
    Except JsError String :=
  let _req := buildRequest service settings prompt options
  match fetch with
  | .reject e =>
      if e.name == "AbortError" then
        .error (jsNewError ("Request timed out after " ++
          toString (settings.timeout / 1000) ++ " seconds"))
      else .error e
  | .httpError status errBody =>
      let msgVal := httpErrMessageVal errBody
      if truthy msgVal then .error (jsNewError (jsToMessageStr msgVal))
      else .error (jsNewError ("HTTP error! status: " ++ toString status))
  | .success body =>
      let result := parseResponse service.provider body
      match result.error with
      | some e => if e != "" then .error (jsNewError e) else .ok result.content
      | Option.none => .ok result.content

/-- The outer catch of `invokeAI`: a failure of the try block emits one
`Notice` and is rethrown.  The second component counts the emitted
notifications. -/
def noticeWrap (r : Except JsError String) : Except JsError String × Nat :=
  match r with
  | .ok c => (.ok c, 0)
  | .error e => (.error e, 1)

/-- `invokeAI` after service resolution: the API-key presence check (both
it and the resolution happen before the try block, so their failures emit
no notification), then the noticed try block. -/
def afterResolve (service : AIServiceConfig) (settings : AIInterfaceSettings)
    (prompt : String) (options : AIRequestOptions) (fetch : FetchOutcome) :
    Except JsError String × Nat :=
  if !truthyIsLocal service && service.apiKey == "" then
    (.error (jsNewError "API key is required for this service"), 0)
  else noticeWrap (tryPhase service settings prompt options fetch)

/-- `invokeAI(prompt, options)` under a given fetch behavior: the result
(or thrown error) paired with the number of user-visible notifications
emitted. -/
def invokeAI (settings : AIInterfaceSettings) (prompt : String)
    (options : AIRequestOptions) (fetch : FetchOutcome) :
    Except JsError String × Nat :=
  match resolveService settings options with
  | .error e => (.error e, 0)
  | .ok service => afterResolve service settings prompt options fetch

/-- `true` when `invokeAI` gets past its pre-request configuration checks
(service resolution and the API-key presence check). -/
def preRequestOk (settings : AIInterfaceSettings) (options : AIRequestOptions) : Bool :=
  match resolveService settings options with
  | .error _ => false
  | .ok s => truthyIsLocal s || s.apiKey != ""

/-- `isConfigured()`: reads `services[activeService].isLocal` (throwing a
TypeError when the active id maps to no entry), else tests the id and the
key for truthiness. -/
def isConfigured (settings : AIInterfaceSettings) : Except JsError Bool :=
  match svcLookup settings.services settings.activeService with
  | Option.none =>
      .error { name := "TypeError",
               message := "Cannot read properties of undefined (reading isLocal)" }
  | some active =>
      if truthyIsLocal active then .ok true
      else .ok (settings.activeService != "" && active.apiKey != "")

/-!
Object-identity model for `getCurrentConfiguration: () => ({...this.settings})`.
JavaScript objects live on a heap and are passed by reference; the object
spread allocates a fresh settings object whose field values — including
the reference to the nested `services` object — are copied as-is (a
shallow copy).  Addresses are indices into the two cell lists.
-/

/-- A settings object as stored on the heap: the `services` field holds a
reference (an address into the services cells). -/
structure SettingsObj where
  activeService : String
  servicesAddr : Nat
  temperature : Rat
  maxTokens : Rat
  timeout : Rat
deriving DecidableEq, Repr

/-- The heap: settings objects and services-map objects, addressed by
index. -/
structure JsHeap where
  settingsCells : List SettingsObj
  servicesCells : List (List (String × AIServiceConfig))
deriving DecidableEq, Repr

/-- The plugin: its heap plus the address of `this.settings`. -/
structure PluginState where
  heap : JsHeap
  settingsAddr : Nat
deriving DecidableEq, Repr

/-- Dereference the plugin's own settings object. -/
def readSettings (st : PluginState) : Option SettingsObj :=
  st.heap.settingsCells.get? st.settingsAddr

/-- A settings object with its nested services map inlined, for
structural (deep) comparison of two heap objects. -/
structure DeepSettings where
  activeService : String
  services : List (String × AIServiceConfig)
  temperature : Rat
  maxTokens : Rat
  timeout : Rat
deriving DecidableEq, Repr

/-- Follow a settings address and its services reference to the full
structural value. -/
def deepRead (h : JsHeap) (addr : Nat) : Option DeepSettings :=
  match h.settingsCells.get? addr with
  | Option.none => Option.none
  | some s =>
    match h.servicesCells.get? s.servicesAddr with
    | Option.none => Option.none
    | some smap =>
        some { activeService := s.activeService, services := smap,
               temperature := s.temperature, maxTokens := s.maxTokens,
               timeout := s.timeout }

/-- `getCurrentConfiguration()`: allocate `{...this.settings}` — a fresh
settings object with the same field values (same `servicesAddr`) — and
return its address together with the grown heap. -/
def getCurrentConfiguration (st : PluginState) : PluginState × Nat :=
  match st.heap.settingsCells.get? st.settingsAddr with
  | Option.none => (st, st.heap.settingsCells.length)
  | some s =>
      ({ heap := { st.heap with settingsCells := st.heap.settingsCells ++ [s] },
         settingsAddr := st.settingsAddr },
       st.heap.settingsCells.length)

/-- Consumer-side mutation `copy.activeService = v` through an address:
writes a top-level field of the addressed settings object. -/
def writeActiveVia (h : JsHeap) (addr : Nat) (v : String) : JsHeap :=
  match h.settingsCells.get? addr with
  | Option.none => h
  | some c =>
      { h with settingsCells :=
          h.settingsCells.set addr { c with activeService := v } }

/-- Consumer-side mutation `copy.services[svcId].apiKey = key` through an
address: follows the addressed settings object's services reference and
writes into that shared services object. -/
def writeServiceApiKeyVia (h : JsHeap) (addr : Nat) (svcId key : String) : JsHeap :=
  match h.settingsCells.get? addr with
  | Option.none => h
  | some sObj =>
    match h.servicesCells.get? sObj.servicesAddr with
    | Option.none => h
    | some smap =>
        { h with servicesCells :=
            (h.servicesCells.set sObj.servicesAddr
              (smap.map (fun p =>
                if p.1 == svcId then (p.1, { p.2 with apiKey := key }) else p))) }

/-!
Concrete fixtures used by counterexamples and witnesses.
-/

/-- Empty per-call options (every field absent). -/
def noOpts : AIRequestOptions := {}

/-- The default OpenAI service of `DEFAULT_SETTINGS` (empty API key). -/
def svcCloudNoKey : AIServiceConfig :=
  { name := "OpenAI Default", url := "https://api.openai.com/v1/chat/completions",
    apiKey := "", headers := [], authType := .bearer, model := "gpt-4-turbo",
    provider := .openai }

/-- A non-local bearer service with a key, hosting model m1. -/
def svcKeyed : AIServiceConfig :=
  { svcCloudNoKey with name := "Svc", apiKey := "sk-123", model := "m1" }

/-- A local ollama service (empty API key, one custom header). -/
def svcLocalOllama : AIServiceConfig :=
  { name := "Ollama", url := "http://localhost:11434/api/chat", apiKey := "",
    headers := [("X-Extra", "1")], authType := .none, model := "llama2",
    provider := .ollama, isLocal := some true }

/-- A non-local azure service with api-key auth. -/
def svcAzure : AIServiceConfig :=
  { name := "Azure", url := "https://example.azure.example/openai", apiKey := "az-key",
    headers := [], authType := .apiKey, model := "gpt-4", provider := .azure }

/-- A non-local google service with api-key auth hosting gemini-pro. -/
def svcGoogle : AIServiceConfig :=
  { name := "Google", url := "https://generativelanguage.googleapis.example/v1",
    apiKey := "g-key", headers := [], authType := .apiKey, model := "gemini-pro",
    provider := .google }

/-- A keyed service whose configured model is the empty string. -/
def svcEmptyModel : AIServiceConfig :=
  { svcKeyed with name := "B", model := "" }

/-- A keyed service hosting model m2 at a distinct endpoint. -/
def svcModelM2 : AIServiceConfig :=
  { svcKeyed with name := "B2", model := "m2", url := "https://b.example.example" }

/-- Settings with the given active id and registry, and the default global
numbers. -/
def mkSettings (active : String) (svcs : List (String × AIServiceConfig)) :
    AIInterfaceSettings :=
  { activeService := active, services := svcs, temperature := 1,
    maxTokens := 2000, timeout := 10000 }

/-- A fetch outcome whose decoded body parses for every chat-shaped
provider. -/
def fetchOkBody : FetchOutcome :=
  .success (.obj [("choices", .arr [.obj [("message", .obj [("content", .str "ok")])]])])

/-- A body carrying only a top-level `message.content` field — the fourth
shape of the fallback probe order. -/
def msgOnlyBody : JsValue := .obj [("message", .obj [("content", .str "hi")])]

/-- The internal settings object of the heap fixture. -/
def c8Obj : SettingsObj :=
  { activeService := "s1", servicesAddr := 0, temperature := 1,
    maxTokens := 2000, timeout := 10000 }

/-- A plugin state whose settings object (address 0) references the only
services object (address 0) holding service s1 with a secret key. -/
def c8State : PluginState :=
  { heap := { settingsCells := [c8Obj],
              servicesCells := [[("s1", { svcKeyed with apiKey := "secret" })]] },
    settingsAddr := 0 }

/-!
Helper lemmas.
-/

theorem bind_ok_inv {α β : Type} {e : Except JsError α} {f : α → Except JsError β} {b : β}
    (h : (e >>= f) = .ok b) : ∃ a, e = .ok a ∧ f a = .ok b := by
  cases e with
  | ok a => exact ⟨a, rfl, h⟩
  | error err => simp [Bind.bind, Except.bind] at h

theorem trimmedContent_ok {ex : JsValue → Except JsError JsValue} {d : JsValue} {r : AIResponse}
    (h : trimmedContent ex d = .ok r) : r.error = Option.none := by
  unfold trimmedContent at h
  obtain ⟨v, hv, h⟩ := bind_ok_inv h
  obtain ⟨s, hs, h⟩ := bind_ok_inv h
  simp [Pure.pure, Except.pure] at h
  rw [← h]

theorem parseChoicesMessage_ok {d : JsValue} {r : AIResponse}
    (h : parseChoicesMessage d = .ok r) : r.error = Option.none := by
  unfold parseChoicesMessage at h
  obtain ⟨_, _, h⟩ := bind_ok_inv h
  obtain ⟨_, _, h⟩ := bind_ok_inv h
  obtain ⟨_, _, h⟩ := bind_ok_inv h
  obtain ⟨_, _, h⟩ := bind_ok_inv h
  obtain ⟨_, _, h⟩ := bind_ok_inv h
  simp [Pure.pure, Except.pure] at h
  rw [← h]

theorem parseAnthropicShape_ok {d : JsValue} {r : AIResponse}
    (h : parseAnthropicShape d = .ok r) : r.error = Option.none := by
  unfold parseAnthropicShape at h
  obtain ⟨_, _, h⟩ := bind_ok_inv h
  obtain ⟨_, _, h⟩ := bind_ok_inv h
  obtain ⟨_, _, h⟩ := bind_ok_inv h
  obtain ⟨_, _, h⟩ := bind_ok_inv h
  simp [Pure.pure, Except.pure] at h
  rw [← h]

theorem parseGoogleShape_ok {d : JsValue} {r : AIResponse}
    (h : parseGoogleShape d = .ok r) : r.error = Option.none := by
  unfold parseGoogleShape at h
  obtain ⟨_, _, h⟩ := bind_ok_inv h
  obtain ⟨_, _, h⟩ := bind_ok_inv h
  obtain ⟨_, _, h⟩ := bind_ok_inv h
  obtain ⟨_, _, h⟩ := bind_ok_inv h
  obtain ⟨_, _, h⟩ := bind_ok_inv h
  obtain ⟨_, _, h⟩ := bind_ok_inv h
  obtain ⟨_, _, h⟩ := bind_ok_inv h
  simp [Pure.pure, Except.pure] at h
  rw [← h]

theorem parseCohereShape_ok {d : JsValue} {r : AIResponse}
    (h : parseCohereShape d = .ok r) : r.error = Option.none := by
  unfold parseCohereShape at h
  obtain ⟨_, _, h⟩ := bind_ok_inv h
  obtain ⟨_, _, h⟩ := bind_ok_inv h
  obtain ⟨_, _, h⟩ := bind_ok_inv h
  obtain ⟨_, _, h⟩ := bind_ok_inv h
  simp [Pure.pure, Except.pure] at h
  rw [← h]

theorem parseQwenShape_ok {d : JsValue} {r : AIResponse}
    (h : parseQwenShape d = .ok r) : r.error = Option.none := by
  unfold parseQwenShape at h
  obtain ⟨_, _, h⟩ := bind_ok_inv h
  obtain ⟨_, _, h⟩ := bind_ok_inv h
  obtain ⟨_, _, h⟩ := bind_ok_inv h
  simp [Pure.pure, Except.pure] at h
  rw [← h]

theorem parseKoboldShape_ok {d : JsValue} {r : AIResponse}
    (h : parseKoboldShape d = .ok r) : r.error = Option.none := by
  unfold parseKoboldShape at h
  obtain ⟨_, _, h⟩ := bind_ok_inv h
  obtain ⟨_, _, h⟩ := bind_ok_inv h
  obtain ⟨_, _, h⟩ := bind_ok_inv h
  obtain ⟨_, _, h⟩ := bind_ok_inv h
  simp [Pure.pure, Except.pure] at h
  rw [← h]

theorem parseOllamaShape_ok {d : JsValue} {r : AIResponse}
    (h : parseOllamaShape d = .ok r) : r.error = Option.none := by
  unfold parseOllamaShape at h
  obtain ⟨a, _, h⟩ := bind_ok_inv h
  split at h
  · simp [Pure.pure, Except.pure] at h
    rw [← h]
  · obtain ⟨b, _, h⟩ := bind_ok_inv h
    split at h <;> (simp [Pure.pure, Except.pure] at h; rw [← h])

theorem parseCustomShape_ok {d : JsValue} {r : AIResponse}
    (h : parseCustomShape d = .ok r) : r.error = Option.none := by
  unfold parseCustomShape at h
  obtain ⟨_, _, h⟩ := bind_ok_inv h
  split at h
  · exact trimmedContent_ok h
  obtain ⟨_, _, h⟩ := bind_ok_inv h
  split at h
  · exact trimmedContent_ok h
  obtain ⟨_, _, h⟩ := bind_ok_inv h
  split at h
  · exact trimmedContent_ok h
  obtain ⟨_, _, h⟩ := bind_ok_inv h
  split at h
  · exact trimmedContent_ok h
  obtain ⟨_, _, h⟩ := bind_ok_inv h
  split at h
  · exact trimmedContent_ok h
  obtain ⟨_, _, h⟩ := bind_ok_inv h
  split at h
  · exact trimmedContent_ok h
  obtain ⟨_, _, h⟩ := bind_ok_inv h
  split at h
  · exact trimmedContent_ok h
  simp at h

theorem parseDefaultShape_ok {d : JsValue} {r : AIResponse}
    (h : parseDefaultShape d = .ok r) : r.error = Option.none := by
  unfold parseDefaultShape at h
  obtain ⟨_, _, h⟩ := bind_ok_inv h
  split at h
  · exact trimmedContent_ok h
  obtain ⟨_, _, h⟩ := bind_ok_inv h
  split at h
  · exact trimmedContent_ok h
  obtain ⟨_, _, h⟩ := bind_ok_inv h
  split at h
  · exact trimmedContent_ok h
  simp at h

theorem parseResponseInner_ok {p : Provider} {d : JsValue} {r : AIResponse}
    (h : parseResponseInner p d = .ok r) : r.error = Option.none := by
  cases p <;> simp only [parseResponseInner] at h <;>
    first
      | exact parseChoicesMessage_ok h
      | exact parseAnthropicShape_ok h
      | exact parseGoogleShape_ok h
      | exact parseCohereShape_ok h
      | exact parseQwenShape_ok h
      | exact parseOllamaShape_ok h
      | exact parseKoboldShape_ok h
      | exact parseCustomShape_ok h
      | exact parseDefaultShape_ok h

theorem find?_split_first {α : Type} (p : α → Bool) (pre post : List α) (x : α)
    (hpre : ∀ a ∈ pre, p a = false) (hx : p x = true) :
    (pre ++ x :: post).find? p = some x := by
  induction pre with
  | nil => simp [List.find?_cons_of_pos, hx]
  | cons a t ih =>
      have ha := hpre a (List.mem_cons_self a t)
      rw [List.cons_append, List.find?_cons_of_neg _ (by simp [ha])]
      exact ih (fun b hb => hpre b (List.mem_cons_of_mem a hb))

/-!
Claim theorems.
-/

/-- C1 counterexample: the claim says every provider tag without a
dedicated normalizer case (e.g. azure) gets the same seven-shape ordered
fallback probe as custom, with the parse-format error only when none of
the seven shapes is present.  On a body exposing the fourth shape
(`message.content`) the custom branch succeeds but the azure/default
branch reports the parse-format failure, because the source's default
branch probes only the first three shapes. -/
theorem C1_counterexample :
    parseResponse Provider.custom msgOnlyBody = { content := "hi" } ∧
    parseResponse Provider.azure msgOnlyBody =
      { content := "",
        error := some "Failed to parse response: Unable to parse response format" } := by
  exact ⟨rfl, rfl⟩

/-- C1 (amended): for provider custom, parseResponse applies the
seven-shape ordered fallback probe (first truthy guard wins, result
trimmed, parse-format error when none matches); for a provider tag not
handled by a dedicated case (azure, the only such tag) it applies only
the first three probes of that same ordered list. -/
theorem C1_amended (data : JsValue) :
    parseResponseInner Provider.custom data = probeFold specFallbackProbes data ∧
    parseResponseInner Provider.azure data =
      probeFold (specFallbackProbes.take 3) data := by
  constructor <;> rfl

/-- C2 counterexample: the claim says every failing `invokeAI` call —
including configuration errors — emits exactly one user-visible
notification before the error propagates.  A call failing the API-key
presence check (raised before the try/catch that shows the Notice)
propagates its error with zero notifications. -/
theorem C2_counterexample :
    invokeAI (mkSettings "default-openai" [("default-openai", svcCloudNoKey)])
      "hello" noOpts fetchOkBody =
    (.error (jsNewError "API key is required for this service"), 0) := by
  exact rfl

/-- C2 (amended): a failure raised inside the request phase (after
service resolution and the API-key check) emits exactly one user-visible
notification before propagating; configuration failures raised before the
try block, and successful calls, emit none. -/
theorem C2_amended (settings : AIInterfaceSettings) (prompt : String)
    (options : AIRequestOptions) (fetch : FetchOutcome) :
    (invokeAI settings prompt options fetch).2 =
      (if preRequestOk settings options = true ∧
          (invokeAI settings prompt options fetch).1.isOk = false then 1 else 0) := by
  unfold invokeAI preRequestOk afterResolve noticeWrap
  cases hre : resolveService settings options with
  | error e => simp
  | ok s =>
    by_cases hl : (!truthyIsLocal s && s.apiKey == "") = true
    · simp only [hl, if_true]
      simp at hl
      simp [hl]
    · simp only [hl, if_false]
      simp [Bool.not_eq_true] at hl
      cases ht : tryPhase s settings prompt options fetch with
      | ok c => simp [Except.isOk, Except.toBool]
      | error e =>
        have hcond : truthyIsLocal s = true ∨ ¬s.apiKey = "" := by
          by_cases hll : truthyIsLocal s = true
          · exact Or.inl hll
          · exact Or.inr (hl (by simpa using hll))
        simp [Except.isOk, Except.toBool, hcond]

/-- C3: the claim — when no service resolves, `invokeAI` fails with
"AI Interface is not properly configured", including when `options.model`
is provided — matches the source's own guard, but with a dangling active
id and a provided model the routing condition dereferences
`activeService.model` before that guard runs, so the call fails with a
TypeError instead.  Without `options.model` the intended configuration
error is produced (second conjunct), showing the early dereference to be
a slip. -/
theorem C3_code_bug :
    invokeAI (mkSettings "missing" [("svc", svcKeyed)]) "p"
      { model := some "m2" } fetchOkBody =
      (.error { name := "TypeError",
                message := "Cannot read properties of undefined (reading model)" }, 0) ∧
    (invokeAI (mkSettings "missing" [("svc", svcKeyed)]) "p" noOpts fetchOkBody).1 =
      .error (jsNewError "AI Interface is not properly configured") := by
  exact ⟨rfl, rfl⟩

/-- C4: for every provider tag and every input value, parseResponse
always returns a result: either a trimmed content with no error, or the
converted failure `{content := "", error := "Failed to parse response: "
++ message}` — no extraction failure escapes its boundary. -/
theorem C4_parse_boundary (p : Provider) (d : JsValue) :
    (∃ s, parseResponse p d = { content := s, error := Option.none }) ∨
    (∃ m, parseResponse p d =
      { content := "", error := some ("Failed to parse response: " ++ m) }) := by
  unfold parseResponse
  cases h : parseResponseInner p d with
  | ok r =>
    left
    refine ⟨r.content, ?_⟩
    have herr := parseResponseInner_ok h
    cases r with
    | mk c e => simp_all
  | error e => exact Or.inr ⟨e.message, rfl⟩

/-- C5: for every resolved service — when it is local, the API-key
presence check is skipped (the call proceeds to the noticed request phase
even with an empty key) and the headers are exactly Content-Type plus the
service's custom headers, with no authentication header for any authType;
when it is not local and its apiKey is empty, the call fails with
"API key is required for this service" before any network attempt (the
result does not depend on the fetch outcome and emits no notification). -/
theorem C5_local_and_key_check (settings : AIInterfaceSettings) (prompt : String)
    (options : AIRequestOptions) (fetch : FetchOutcome) (s : AIServiceConfig)
    (hres : resolveService settings options = .ok s) :
    (truthyIsLocal s = true →
      buildHeaders s = baseHeaders s ∧
      invokeAI settings prompt options fetch =
        noticeWrap (tryPhase s settings prompt options fetch)) ∧
    (truthyIsLocal s = false → s.apiKey = "" →
      invokeAI settings prompt options fetch =
        (.error (jsNewError "API key is required for this service"), 0)) := by
  unfold invokeAI afterResolve
  rw [hres]
  constructor
  · intro hl
    constructor
    · unfold buildHeaders
      simp [hl]
    · simp [hl]
  · intro hl hk
    simp [hl, hk]

/-- C5 witness: the local ollama service with an empty API key passes the
key check and gets no authentication header. -/
theorem C5_witness :
    buildHeaders svcLocalOllama = baseHeaders svcLocalOllama ∧
    invokeAI (mkSettings "loc" [("loc", svcLocalOllama)]) "p" noOpts fetchOkBody =
      noticeWrap (tryPhase svcLocalOllama (mkSettings "loc" [("loc", svcLocalOllama)])
        "p" noOpts fetchOkBody) :=
  (C5_local_and_key_check (mkSettings "loc" [("loc", svcLocalOllama)]) "p" noOpts
    fetchOkBody svcLocalOllama (by rfl)).1 (by rfl)

/-- C6 counterexample: the claim quantifies over every provided
`options.model` that differs from the active service's model.  With
`options.model = ""` (provided, and different from the active model m1)
the registry contains an entry B whose model equals it, yet resolution
keeps the active service A, because the routing condition tests the
option for truthiness and the empty string is falsy. -/
theorem C6_counterexample :
    ((mkSettings "A" [("A", svcKeyed), ("B", svcEmptyModel)]).services.find?
        (fun p => p.2.model == "")).map (fun p => p.1) = some "B" ∧
    svcKeyed.model ≠ "" ∧
    resolveService (mkSettings "A" [("A", svcKeyed), ("B", svcEmptyModel)])
      { model := some "" } = .ok svcKeyed := by
  refine ⟨rfl, by decide, rfl⟩

/-- C6 (amended): when `options.model` is provided, non-empty, and
differs from the active service's model, `invokeAI` scans the registry in
insertion order and the first entry whose model equals it is resolved and
used for the whole request phase (its endpoint, headers, provider and
auth configuration). -/
theorem C6_amended (settings : AIInterfaceSettings) (options : AIRequestOptions)
    (prompt : String) (fetch : FetchOutcome) (m id : String)
    (active cfg : AIServiceConfig) (pre post : List (String × AIServiceConfig))
    (hm : options.model = some m) (hmne : m ≠ "")
    (hactive : svcLookup settings.services settings.activeService = some active)
    (hdiff : m ≠ active.model)
    (hsplit : settings.services = pre ++ (id, cfg) :: post)
    (hpre : ∀ e ∈ pre, e.2.model ≠ m) (hcfg : cfg.model = m) :
    resolveService settings options = .ok cfg ∧
    invokeAI settings prompt options fetch =
      afterResolve cfg settings prompt options fetch := by
  have hfind : settings.services.find? (fun p => p.2.model == m) = some (id, cfg) := by
    rw [hsplit]
    apply find?_split_first
    · intro a ha
      simp [hpre a ha]
    · simp [hcfg]
  have hres : resolveService settings options = .ok cfg := by
    unfold resolveService
    rw [hm, hactive]
    simp [hmne, hfind]
    rw [if_neg hdiff]
  refine ⟨hres, ?_⟩
  unfold invokeAI
  rw [hres]

/-- C6 witness: with active service A hosting m1 and registry entry B2
hosting m2, requesting model m2 resolves and uses B2. -/
theorem C6_witness :
    resolveService (mkSettings "A" [("A", svcKeyed), ("B2", svcModelM2)])
      { model := some "m2" } = .ok svcModelM2 ∧
    invokeAI (mkSettings "A" [("A", svcKeyed), ("B2", svcModelM2)]) "p"
      { model := some "m2" } fetchOkBody =
      afterResolve svcModelM2 (mkSettings "A" [("A", svcKeyed), ("B2", svcModelM2)])
        "p" { model := some "m2" } fetchOkBody :=
  C6_amended (mkSettings "A" [("A", svcKeyed), ("B2", svcModelM2)])
    { model := some "m2" } "p" fetchOkBody "m2" "B2" svcKeyed svcModelM2
    [("A", svcKeyed)] [] rfl (by decide) rfl (by decide) rfl (by decide) rfl

/-- C7 counterexample: the claim says `isConfigured()` always returns a
boolean for every Settings value.  When the active-service id maps to no
registry entry, the read of `activeService.isLocal` throws a TypeError
instead. -/
theorem C7_counterexample :
    isConfigured (mkSettings "missing" [("svc", svcKeyed)]) =
      .error { name := "TypeError",
               message := "Cannot read properties of undefined (reading isLocal)" } := by
  exact rfl

/-- C7 (amended): for every Settings value whose active-service id maps
to a registry entry, `isConfigured()` returns a boolean that is true iff
the active service is local, or the active id is non-empty and the
service's apiKey is non-empty. -/
theorem C7_amended (settings : AIInterfaceSettings) (active : AIServiceConfig)
    (h : svcLookup settings.services settings.activeService = some active) :
    isConfigured settings =
      .ok (truthyIsLocal active ||
        (settings.activeService != "" && active.apiKey != "")) := by
  unfold isConfigured
  rw [h]
  by_cases hl : truthyIsLocal active <;> simp [hl]

/-- C7 witness: a local active service with an empty API key evaluates to
a boolean (true) through the amended characterization. -/
theorem C7_witness :
    isConfigured (mkSettings "loc" [("loc", svcLocalOllama)]) =
      .ok (truthyIsLocal svcLocalOllama ||
        ((mkSettings "loc" [("loc", svcLocalOllama)]).activeService != "" &&
          svcLocalOllama.apiKey != "")) :=
  C7_amended (mkSettings "loc" [("loc", svcLocalOllama)]) svcLocalOllama rfl

/-- C8 counterexample: the claim says mutating any part of the object
returned by `getCurrentConfiguration()` — including nested service
entries — leaves internal state untouched.  Starting from a state whose
service s1 has key "secret", writing the nested apiKey through the
returned copy (a distinct object: its address differs from the internal
one) changes the plugin's internal view to "HACKED", because the copy is
shallow and shares the nested services object. -/
theorem C8_counterexample :
    (deepRead c8State.heap c8State.settingsAddr).map
        (fun d => (svcLookup d.services "s1").map (fun c => c.apiKey)) =
      some (some "secret") ∧
    (getCurrentConfiguration c8State).2 ≠ c8State.settingsAddr ∧
    (deepRead (writeServiceApiKeyVia (getCurrentConfiguration c8State).1.heap
        (getCurrentConfiguration c8State).2 "s1" "HACKED")
        c8State.settingsAddr).map
        (fun d => (svcLookup d.services "s1").map (fun c => c.apiKey)) =
      some (some "HACKED") := by
  refine ⟨rfl, by decide, rfl⟩

/-- C8 (amended): two calls without intervening mutation return
structurally (deep) equal but not identity-equal objects; the copy is
shallow — its nested services reference is the internal one — so writing
a top-level field through the copy leaves the internal settings object
unchanged, while writing a nested service entry through the copy is the
very same heap write as writing it through the internal object. -/
theorem C8_amended (st : PluginState) (s : SettingsObj)
    (h : readSettings st = some s) (v svcId key : String) :
    (getCurrentConfiguration st).2 ≠
      (getCurrentConfiguration (getCurrentConfiguration st).1).2 ∧
    deepRead (getCurrentConfiguration (getCurrentConfiguration st).1).1.heap
        (getCurrentConfiguration st).2 =
      deepRead (getCurrentConfiguration (getCurrentConfiguration st).1).1.heap
        (getCurrentConfiguration (getCurrentConfiguration st).1).2 ∧
    ((getCurrentConfiguration st).1.heap.settingsCells.get?
        (getCurrentConfiguration st).2).map SettingsObj.servicesAddr =
      some s.servicesAddr ∧
    readSettings { heap := (writeActiveVia (getCurrentConfiguration st).1.heap
        (getCurrentConfiguration st).2 v), settingsAddr := st.settingsAddr } = some s ∧
    writeServiceApiKeyVia (getCurrentConfiguration st).1.heap
        (getCurrentConfiguration st).2 svcId key =
      writeServiceApiKeyVia (getCurrentConfiguration st).1.heap
        st.settingsAddr svcId key := by
  unfold readSettings at h
  have hlt : st.settingsAddr < st.heap.settingsCells.length := by
    rcases List.get?_eq_some.mp h with ⟨hl, _⟩
    exact hl
  have hg1 : getCurrentConfiguration st =
      ({ heap := { st.heap with settingsCells := st.heap.settingsCells ++ [s] },
         settingsAddr := st.settingsAddr }, st.heap.settingsCells.length) := by
    unfold getCurrentConfiguration
    rw [h]
  have hr1 : (st.heap.settingsCells ++ [s]).get? st.settingsAddr = some s := by
    rw [List.get?_append hlt]
    exact h
  have hcat : (st.heap.settingsCells ++ [s]).get? st.heap.settingsCells.length = some s :=
    List.get?_concat_length _ _
  have hg2 : getCurrentConfiguration (getCurrentConfiguration st).1 =
      ({ heap := { st.heap with settingsCells := (st.heap.settingsCells ++ [s]) ++ [s] },
         settingsAddr := st.settingsAddr }, (st.heap.settingsCells ++ [s]).length) := by
    rw [hg1]
    unfold getCurrentConfiguration
    simp only
    rw [hr1]
  refine ⟨?_, ?_, ?_, ?_, ?_⟩
  · rw [hg2, hg1]
    simp
  · rw [hg2, hg1]
    simp only
    unfold deepRead
    have h1 : ((st.heap.settingsCells ++ [s]) ++ [s]).get?
        st.heap.settingsCells.length = some s := by
      rw [List.get?_append (by simp)]
      exact hcat
    have h2 : ((st.heap.settingsCells ++ [s]) ++ [s]).get?
        (st.heap.settingsCells ++ [s]).length = some s := List.get?_concat_length _ _
    rw [h1, h2]
  · rw [hg1]
    simp only
    rw [hcat]
    rfl
  · rw [hg1]
    simp only
    unfold writeActiveVia
    simp only
    rw [hcat]
    unfold readSettings
    simp only
    rw [List.get?_set_ne]
    · rw [List.get?_append hlt]
      exact h
    · omega
  · rw [hg1]
    simp only
    unfold writeServiceApiKeyVia
    simp only
    rw [hcat, hr1]

/-- C8 witness: the amended claim instantiated on the concrete heap
fixture. -/
theorem C8_witness :
    (getCurrentConfiguration c8State).2 ≠
      (getCurrentConfiguration (getCurrentConfiguration c8State).1).2 ∧
    deepRead (getCurrentConfiguration (getCurrentConfiguration c8State).1).1.heap
        (getCurrentConfiguration c8State).2 =
      deepRead (getCurrentConfiguration (getCurrentConfiguration c8State).1).1.heap
        (getCurrentConfiguration (getCurrentConfiguration c8State).1).2 ∧
    ((getCurrentConfiguration c8State).1.heap.settingsCells.get?
        (getCurrentConfiguration c8State).2).map SettingsObj.servicesAddr =
      some c8Obj.servicesAddr ∧
    readSettings { heap := (writeActiveVia (getCurrentConfiguration c8State).1.heap
        (getCurrentConfiguration c8State).2 "x"), settingsAddr := c8State.settingsAddr } =
      some c8Obj ∧
    writeServiceApiKeyVia (getCurrentConfiguration c8State).1.heap
        (getCurrentConfiguration c8State).2 "s1" "k" =
      writeServiceApiKeyVia (getCurrentConfiguration c8State).1.heap
        c8State.settingsAddr "s1" "k" :=
  C8_amended c8State c8Obj (by rfl) "x" "s1" "k"

/-- C9: for every non-local service with authType api-key, the
synthesized authentication header is named api-key and carries the apiKey
value for every provider except google, which gets x-goog-api-key; azure
goes through the same api-key name as the generic branch (the header-name
function below does not special-case azure). -/
theorem C9_api_key_header (s : AIServiceConfig)
    (hl : truthyIsLocal s = false) (ha : s.authType = AuthType.apiKey) :
    buildHeaders s = setKey (baseHeaders s)
      (if s.provider = Provider.google then "x-goog-api-key" else "api-key")
      s.apiKey := by
  unfold buildHeaders
  rw [hl, ha]
  cases hp : s.provider <;> simp [hp]

/-- C9 witness: the azure fixture gets the generic api-key header name. -/
theorem C9_witness :
    buildHeaders svcAzure = setKey (baseHeaders svcAzure)
      (if svcAzure.provider = Provider.google then "x-goog-api-key" else "api-key")
      svcAzure.apiKey :=
  C9_api_key_header svcAzure rfl rfl

/-- C10 counterexample: the claim says that with an unmatched
`options.model` the request body's model field carries the caller's
model.  With an active google service the call does proceed with the
active service, but the google body shape has no model field at all. -/
theorem C10_counterexample :
    resolveService (mkSettings "G" [("G", svcGoogle)])
      { model := some "gemini-ultra" } = .ok svcGoogle ∧
    jsField (buildRequest svcGoogle (mkSettings "G" [("G", svcGoogle)]) "p"
      { model := some "gemini-ultra" }).body "model" = Option.none := by
  exact ⟨rfl, rfl⟩

/-- C10 (amended): when `options.model` is provided, differs from the
active service's model, and no registry entry hosts it, `invokeAI`
proceeds with the active service unchanged, and the model value merged
into the request body is the caller's — so for every provider whose body
shape carries a model field (all but google and koboldai) that field
equals `options.model`. -/
theorem C10_amended (settings : AIInterfaceSettings) (options : AIRequestOptions)
    (prompt : String) (fetch : FetchOutcome) (m : String) (active : AIServiceConfig)
    (hm : options.model = some m)
    (hactive : svcLookup settings.services settings.activeService = some active)
    (hdiff : m ≠ active.model)
    (hnone : ∀ e ∈ settings.services, e.2.model ≠ m) :
    resolveService settings options = .ok active ∧
    invokeAI settings prompt options fetch =
      afterResolve active settings prompt options fetch ∧
    (active.provider ≠ Provider.google → active.provider ≠ Provider.koboldai →
      jsField (buildRequest active settings prompt options).body "model" =
        some (.str m)) := by
  have hfind : settings.services.find? (fun p => p.2.model == m) = Option.none := by
    rw [List.find?_eq_none]
    intro e he
    simp [hnone e he]
  have hres : resolveService settings options = .ok active := by
    unfold resolveService
    rw [hm, hactive]
    by_cases he : m = ""
    · simp [he]
    · simp [he, hfind]
  refine ⟨hres, by unfold invokeAI; rw [hres], ?_⟩
  intro hg hk
  cases hp : active.provider <;>
    first
      | exact absurd hp hg
      | exact absurd hp hk
      | simp [buildRequest, formatRequestBody, jsField, hm, hp]

/-- C10 witness: requesting unmatched model m9 against the active openai
service keeps that service and puts m9 in the body's model field. -/
theorem C10_witness :
    resolveService (mkSettings "A" [("A", svcKeyed)]) { model := some "m9" } =
      .ok svcKeyed ∧
    invokeAI (mkSettings "A" [("A", svcKeyed)]) "p" { model := some "m9" }
        fetchOkBody =
      afterResolve svcKeyed (mkSettings "A" [("A", svcKeyed)]) "p"
        { model := some "m9" } fetchOkBody ∧
    (svcKeyed.provider ≠ Provider.google → svcKeyed.provider ≠ Provider.koboldai →
      jsField (buildRequest svcKeyed (mkSettings "A" [("A", svcKeyed)]) "p"
        { model := some "m9" }).body "model" = some (.str "m9")) :=
  C10_amended (mkSettings "A" [("A", svcKeyed)]) { model := some "m9" } "p"
    fetchOkBody "m9" svcKeyed rfl rfl (by decide) (by decide)
